import Mathlib

/-!
Verification of the periodic state-reconciliation subsystem of the
watchparty server against its specification.

The definitions below are a shallow embedding of the TypeScript source:
`server/server.ts` (room registry, vBrowser release sweep, lock renewal,
memory reclaimer, startup loading) and `server/syncSubs.ts` (subscriber
reconciliation). Machine integers are modelled as `Int`/`Nat` (JavaScript
numbers stay far below 2^53 here, so no overflow wrapping is needed),
JavaScript `undefined`/`null` as `Option`, and thrown exceptions as
`Except`. External collaborators (the identity provider, the billing
provider, the key/TTL store, the durable store's query, the per-room hash)
are passed in as explicit function arguments.
-/

/-! ## Constants (server/server.ts lines 38-39, 89, 91) -/

/-- `const releaseInterval = 5 * 60 * 1000;` (milliseconds). -/
def releaseInterval : Int := 5 * 60 * 1000

/-- `const releaseBatches = 10;` -/
def releaseBatches : Nat := 10

/-- `setInterval(minuteMetrics, 60 * 1000)` — the lock-renewal interval in
milliseconds. -/
def minuteMetricsIntervalMs : Nat := 60 * 1000

/-! ## Data model

The `Room` class lives outside `src/`; the fields below are the ones this
core reads (`roomId`, `roster`, `lastUpdateTime`, `vBrowser`), with types
taken from the spec's data model (§3). -/

structure VBrowserSession where
  id : String
  provider : String
  large : Bool
  assignTime : Option Int
  creatorUID : Option String
  creatorClientID : Option String
deriving DecidableEq

structure Room where
  roomId : String
  roster : List String
  lastUpdateTime : Int
  vBrowser : Option VBrowserSession
deriving DecidableEq

/-- Modelled from the spec: `Room.stopVBrowserInternal` is not under
`src/`; per §4.3 the scheduler releases a session by clearing the room's
session reference and signalling the external session provider to tear it
down. -/
def stopVBrowserInternal (room : Room) : Room :=
  { room with vBrowser := none }

/-- Observable side effects of one room's evaluation in the release sweep:
the teardown signal, a system chat message (`addChatMessage` with the given
`cmd`), and a redis counter increment (`redisCount` with the given key). -/
inductive ReleaseEffect where
  | stopVBrowser : ReleaseEffect
  | chat (cmd : String) : ReleaseEffect
  | count (key : String) : ReleaseEffect
deriving DecidableEq

/-! ## Release sweep (server/server.ts lines 522-567)

`releaseRoom` is the body of the `for` loop of `release` for one room:
the session-limit function `getSessionLimitSeconds` (from `vm/utils`, not
under `src/`) and the current time are passed in. JavaScript truthiness of
`room.vBrowser.assignTime` and of `ttl` is modelled explicitly
(`assignTime ≠ 0`, `ttl ≠ 0`). -/

def releaseRoom (getSessionLimitSeconds : Bool → Nat) (now : Int)
    (room : Room) : Room × List ReleaseEffect :=
  match room.vBrowser with
  | none => (room, [])
  | some vb =>
    match vb.assignTime with
    | none => (room, [])
    | some assignTime =>
      if assignTime = 0 then (room, []) else
      let maxTime : Int := (getSessionLimitSeconds vb.large : Int) * 1000
      let elapsed : Int := now - assignTime
      let ttl : Int := maxTime - elapsed
      if (ttl ≠ 0 ∧ ttl < releaseInterval) ∨
          (room.roster.length = 0 ∧ now - room.lastUpdateTime > 5 * 60 * 1000) then
        if ttl ≠ 0 ∧ ttl < releaseInterval then
          (stopVBrowserInternal room,
            [ReleaseEffect.stopVBrowser, ReleaseEffect.chat "vBrowserTimeout",
              ReleaseEffect.count "vBrowserTerminateTimeout"])
        else if room.roster.length = 0 then
          (stopVBrowserInternal room,
            [ReleaseEffect.stopVBrowser, ReleaseEffect.count "vBrowserTerminateEmpty"])
        else
          (stopVBrowserInternal room, [ReleaseEffect.stopVBrowser])
      else if ttl ≠ 0 ∧ ttl < releaseInterval * 2 then
        (room, [ReleaseEffect.chat "vBrowserAlmostTimeout"])
      else
        (room, [])

/-- The batch filter of `release` (line 528): keep the rooms whose id
hashes (mod `releaseBatches`) to the current batch counter. `hashString`
(from `utils/string`) is not under `src/` and is passed in; per the spec
(§4.1, §4.3) it is a deterministic hash of the id. -/
def releaseFilter (hashString : String → Nat) (currBatch : Nat)
    (rooms : List Room) : List Room :=
  rooms.filter (fun room => hashString room.roomId % releaseBatches == currBatch)

/-- Advance of the batch counter after a sweep (line 566):
`currBatch = (currBatch + 1) % releaseBatches`. -/
def nextBatch (currBatch : Nat) : Nat :=
  (currBatch + 1) % releaseBatches

/-- The batch counter after `k` sweeps starting from `c0`. -/
def batchAfter (c0 : Nat) : Nat → Nat
  | 0 => c0
  | k + 1 => nextBatch (batchAfter c0 k)

/-- Modelled from the spec: the bodies of `Room.stopVBrowserInternal` and
`Room.addChatMessage` are not under `src/`. Per §6 both are fire-and-forget
signals (the sweep's calls are not awaited), so a failure surfaces as an
asynchronously reported error and does not propagate into the loop of
`release`: the sweep records the error for the failing room and continues
with the rest of the batch. `stopOutcome` gives each room's teardown
outcome. -/
def releaseSweep (getSessionLimitSeconds : Bool → Nat) (now : Int)
    (stopOutcome : Room → Except String Unit) :
    List Room → List (Room × List ReleaseEffect) × List String
  | [] => ([], [])
  | room :: rest =>
    let r := releaseRoom getSessionLimitSeconds now room
    let errs : List String :=
      if r.2.contains ReleaseEffect.stopVBrowser then
        match stopOutcome room with
        | Except.ok _ => []
        | Except.error e => [e]
      else []
    let tail := releaseSweep getSessionLimitSeconds now stopOutcome rest
    (r :: tail.1, errs ++ tail.2)

/-! ## Lock renewal and metering (server/server.ts lines 569-600) -/

/-- A command issued to the key/TTL store by `minuteMetrics`. -/
inductive RedisCmd where
  | expire (key : String) (ttlSeconds : Nat) : RedisCmd
  | zincrby (key : String) (amount : Nat) (member : String) : RedisCmd
  | expireat (key : String) (time : Int) : RedisCmd
deriving DecidableEq

/-- JavaScript string interpolation of a possibly-undefined value
(`'vBrowserUIDLock:' + room.vBrowser?.creatorUID`). -/
def jsShow : Option String → String
  | none => "undefined"
  | some s => s

/-- The body of the `minuteMetrics` loop for one room: lock renewals to
fixed TTLs and per-day usage-counter increments. `startOfDaySec` is
`getStartOfDay() / 1000`. Truthiness of `room.vBrowser.id` and of the
creator identifiers is modelled as nonemptiness. -/
def minuteMetricsRoom (startOfDaySec : Int) (room : Room) : List RedisCmd :=
  match room.vBrowser with
  | none => []
  | some vb =>
    if vb.id = "" then [] else
    let expireTime : Int := startOfDaySec + 86400
    [RedisCmd.expire ("lock:" ++ vb.provider ++ ":" ++ vb.id) 300,
      RedisCmd.expire ("vBrowserUIDLock:" ++ jsShow vb.creatorUID) 120]
    ++ (match vb.creatorClientID with
        | some cid =>
          if cid = "" then [] else
            [RedisCmd.zincrby "vBrowserClientIDMinutes" 1 cid,
              RedisCmd.expireat "vBrowserClientIDMinutes" expireTime]
        | none => [])
    ++ (match vb.creatorUID with
        | some uid =>
          if uid = "" then [] else
            [RedisCmd.zincrby "vBrowserUIDMinutes" 1 uid,
              RedisCmd.expireat "vBrowserUIDMinutes" expireTime]
        | none => [])

/-- One pass of `minuteMetrics` over the full registry. -/
def minuteMetrics (startOfDaySec : Int) (rooms : List Room) : List RedisCmd :=
  rooms.flatMap (minuteMetricsRoom startOfDaySec)

/-! ## Memory reclaimer (server/server.ts lines 602-615) -/

/-- One pass of `freeUnusedRooms` given the fetched durable id set:
first component is the registry afterwards, second the destroyed rooms.
A room is destroyed and removed exactly when its roster is empty and its
id is absent from the durable set. -/
def freeUnusedRooms (persistedIds : List String) (rooms : List Room) :
    List Room × List Room :=
  (rooms.filter
      (fun room => !(room.roster.length == 0 && !(persistedIds.contains room.roomId))),
    rooms.filter
      (fun room => room.roster.length == 0 && !(persistedIds.contains room.roomId)))

/-! ## Startup loading (server/server.ts lines 63-102, 617-640) -/

/-- A row of the durable `room` table as used by `init`. -/
structure PersistentRoom where
  roomId : String
  data : Option String
deriving DecidableEq

/-- The shard range pattern computed by `getAllRooms` (lines 621-632):
for each lowercase letter, include it when `(code % numShards) + 1`
equals this process's shard. -/
def shardRange (cfgShard : Option Nat) (numShards : Nat) : String :=
  match cfgShard with
  | none => "/%"
  | some shard =>
    let selection :=
      ((List.range 26).filter (fun j => (97 + j) % numShards + 1 == shard)).map
        (fun j => String.mk [Char.ofNat (97 + j)])
    "/(" ++ String.intercalate "|" selection ++ ")%"

/-- `getAllRooms`: returns `[]` when no durable store is configured,
otherwise issues the shard-filtered query, whose outcome (`query`) is
external; a thrown query propagates. -/
def getAllRooms (cfgShard : Option Nat) (numShards : Nat)
    (postgresConfigured : Bool)
    (query : String → Except String (List PersistentRoom)) :
    Except String (List PersistentRoom) :=
  if !postgresConfigured then Except.ok []
  else query (shardRange cfgShard numShards)

/-- What `init` has accomplished when it finishes: the room registry as
(id, serialized data) pairs, the server listening, and the four timer
loops started. -/
structure InitResult where
  registry : List (String × Option String)
  serverListening : Bool
  timersStarted : Bool
deriving DecidableEq

/-- `init` (lines 67-102): when a durable store is configured, load this
shard's rooms (a thrown query propagates out of the `await`, so the
remaining startup steps never run); ensure the `/default` room; then
listen and start the timers. -/
def init (cfgShard : Option Nat) (numShards : Nat)
    (postgresConfigured : Bool)
    (query : String → Except String (List PersistentRoom)) :
    Except String InitResult :=
  match
    (if postgresConfigured then
      getAllRooms cfgShard numShards postgresConfigured query
    else Except.ok []) with
  | Except.error e => Except.error e
  | Except.ok persistedRooms =>
    let registry := persistedRooms.map (fun r => (r.roomId, r.data))
    let registry :=
      if registry.any (fun kv => kv.1 == "/default") then registry
      else registry ++ [("/default", (none : Option String))]
    Except.ok { registry := registry, serverListening := true, timersStarted := true }

/-! ## Subscriber reconciliation (server/syncSubs.ts)

External collaborators, per the spec's contracts (§6): the billing
provider supplies the active subscriptions and the customer list; the
identity provider's `getUserByEmail` maps an email to the uid of its user
(or none); `md5` is the stable content hash (`createHash('md5')`), whose
digest is a function of the sequence of updates fed to it. -/

structure StripeSubscription where
  customer : String
  status : String
deriving DecidableEq

structure StripeCustomer where
  id : String
  email : Option String
deriving DecidableEq

/-- A candidate row of the `subscriber` table. -/
structure Subscriber where
  customerId : String
  email : Option String
  status : String
  uid : Option String
deriving DecidableEq

/-- A row of the durable `room` table as touched by the reconciler. -/
structure DbRoom where
  roomId : String
  owner : Option String
  isSubRoom : Bool
deriving DecidableEq

/-- Durable state touched by the reconciliation transaction. -/
structure DbState where
  subscribers : List Subscriber
  rooms : List DbRoom
deriving DecidableEq

/-- The `emailMap` lookup (lines 31-34): `Map.set` overwrites, so the last
customer record with a given id wins; a missing customer and a null email
both come out as `none`. -/
def emailOf (customers : List StripeCustomer) (customerId : String) : Option String :=
  match customers.reverse.find? (fun c => c.id == customerId) with
  | none => none
  | some c => c.email

/-- One subscription's resolved uid (lines 36-59): a falsy email (missing
customer, null, or empty) resolves to no uid; otherwise the identity
provider is consulted and `uidMap.get` returns its uid, or none when it
reported no user. -/
def resolveUid (getUserByEmail : String → Option String)
    (customers : List StripeCustomer) (sub : StripeSubscription) : Option String :=
  match emailOf customers sub.customer with
  | none => none
  | some e => if e = "" then none else getUserByEmail e

/-- The candidate subscriber rows of one pass (lines 54-60), in the order
the billing provider returned the subscriptions. -/
def buildResult (getUserByEmail : String → Option String)
    (customers : List StripeCustomer) (subs : List StripeSubscription) :
    List Subscriber :=
  subs.map (fun sub =>
    { customerId := sub.customer,
      email := emailOf customers sub.customer,
      status := sub.status,
      uid := resolveUid getUserByEmail customers sub })

/-- The digest loop (lines 63-68): `hash.update(row.uid)` throws a
`TypeError` as soon as a uid is undefined, so the sequence of updates is
produced only when every uid resolves. -/
def hashUpdateAll : List (Option String) → Except String (List String)
  | [] => Except.ok []
  | none :: _ => Except.error "TypeError: Data must be a string or a buffer"
  | some s :: rest =>
    match hashUpdateAll rest with
    | Except.error e => Except.error e
    | Except.ok l => Except.ok (s :: l)

/-- `currentSubsDigest` of one pass: the md5 digest over the resolved
uids, in provider order; throws when a uid is undefined. -/
def computeDigest (md5 : List String → String) (result : List Subscriber) :
    Except String String :=
  match hashUpdateAll (result.map (fun r => r.uid)) with
  | Except.error e => Except.error e
  | Except.ok uids => Except.ok (md5 uids)

/-- `UPDATE room SET "isSubRoom" = false` (line 76). -/
def clearSubRooms (rooms : List DbRoom) : List DbRoom :=
  rooms.map (fun r => { r with isSubRoom := false })

/-- `updateObject(postgres2, 'room', { isSubRoom: true }, { owner: row.uid })`
(lines 80-85): SQL equality with NULL matches nothing. -/
def updateRoomsForUid (uid : Option String) (rooms : List DbRoom) : List DbRoom :=
  rooms.map (fun r =>
    if uid ≠ none ∧ r.owner = uid then { r with isSubRoom := true } else r)

/-- The insert/update loop of the transaction (lines 77-86). -/
def insertLoop (result : List Subscriber) (db : DbState) : DbState :=
  result.foldl
    (fun acc row =>
      { subscribers := acc.subscribers ++ [row],
        rooms := updateRoomsForUid row.uid acc.rooms })
    db

/-- The whole transaction (lines 74-87): clear the subscriber table, clear
every room's flag, then insert each candidate row and set the flag on the
rooms it owns. -/
def applyTransaction (db : DbState) (result : List Subscriber) : DbState :=
  insertLoop result { subscribers := [], rooms := clearSubRooms db.rooms }

/-- Outcome of one reconciliation pass: the module-level
`lastSubsDigest` afterwards, the durable state afterwards, and whether the
transaction ran. -/
structure SyncResult where
  lastSubsDigest : Option String
  db : DbState
  wrote : Bool
deriving DecidableEq

/-- One pass of `syncSubscribers` (lines 20-96). `lastSubsDigest` is
`none` before the first pass (the module variable starts undefined). The
digest gate (line 72) compares the fresh digest with the previous one and
skips the transaction when they agree; either way the previous digest is
replaced (line 94). A digest `TypeError` (line 66) propagates before any
durable write and before line 94. -/
def syncSubscribers (md5 : List String → String)
    (getUserByEmail : String → Option String)
    (stripeConfigured firebaseConfigured : Bool)
    (subs : List StripeSubscription) (customers : List StripeCustomer)
    (lastSubsDigest : Option String) (db : DbState) :
    Except String SyncResult :=
  if !stripeConfigured || !firebaseConfigured then
    Except.ok { lastSubsDigest := lastSubsDigest, db := db, wrote := false }
  else
    let result := buildResult getUserByEmail customers subs
    match computeDigest md5 result with
    | Except.error e => Except.error e
    | Except.ok digest =>
      if some digest ≠ lastSubsDigest then
        Except.ok { lastSubsDigest := some digest,
                    db := applyTransaction db result, wrote := true }
      else
        Except.ok { lastSubsDigest := some digest, db := db, wrote := false }

/-! ## Concrete fixtures for counterexamples and witnesses -/

/-- A concrete session-limit function: one hour standard, four hours
large (the exact allotments live outside `src/`; every claim here is
proved for an arbitrary limit function and only instantiated with this
one). -/
def sessionLimitExample : Bool → Nat := fun large => if large then 4 * 3600 else 3600

/-- A standard-tier session whose remaining ttl at time 10000000 is
exactly `releaseInterval` (assigned at 6700000, limit 3600s). -/
def vbBoundary : VBrowserSession :=
  { id := "vb1", provider := "Docker", large := false,
    assignTime := some 6700000, creatorUID := none, creatorClientID := none }

/-- An occupied, freshly active room holding `vbBoundary`. -/
def roomBoundary : Room :=
  { roomId := "/room1", roster := ["alice"], lastUpdateTime := 10000000,
    vBrowser := some vbBoundary }

/-- C1 counterexample: at `now = 10000000` the session in `roomBoundary`
has `ttl = 3600000 - 3300000 = 300000 = releaseInterval`, so the claim's
condition `ttl ≤ releaseInterval` holds; yet the sweep does not mark it
TIMED_OUT — it only emits the almost-timed-out warning and leaves the
session in place, because the code tests `ttl < releaseInterval`
strictly. -/
theorem release_timeout_boundary_counterexample :
    ((3600 : Int) * 1000 - ((10000000 : Int) - 6700000) ≤ releaseInterval)
    ∧ releaseRoom sessionLimitExample 10000000 roomBoundary
        = (roomBoundary, [ReleaseEffect.chat "vBrowserAlmostTimeout"])
    ∧ (roomBoundary.vBrowser ≠ none) := by
  decide

/-- C1 (amended): for a room holding a session with a set (truthy)
assignTime, the sweep marks the session TIMED_OUT — emitting the
`vBrowserTimeout` chat message and incrementing the timeout counter —
iff `ttl ≠ 0 ∧ ttl < releaseInterval` (strict inequality; the claim's
`ttl ≤ releaseInterval` is wrong at the boundary), and in that case the
session is released. -/
theorem release_timeout_iff (sl : Bool → Nat) (now : Int) (room : Room)
    (vb : VBrowserSession) (assignTime ttl : Int)
    (hvb : room.vBrowser = some vb) (hat : vb.assignTime = some assignTime)
    (hat0 : assignTime ≠ 0)
    (httl : ttl = (sl vb.large : Int) * 1000 - (now - assignTime)) :
    ((ReleaseEffect.chat "vBrowserTimeout" ∈ (releaseRoom sl now room).2
        ∧ ReleaseEffect.count "vBrowserTerminateTimeout" ∈ (releaseRoom sl now room).2)
      ↔ (ttl ≠ 0 ∧ ttl < releaseInterval))
    ∧ ((ttl ≠ 0 ∧ ttl < releaseInterval) →
        (releaseRoom sl now room).1.vBrowser = none
        ∧ ReleaseEffect.stopVBrowser ∈ (releaseRoom sl now room).2) := by
  subst httl
  simp only [releaseRoom, hvb, hat, if_neg hat0]
  split_ifs with h1 h2 h3 h4 <;>
    simp_all [stopVBrowserInternal]

/-- A standard-tier session with one minute of ttl left at 10000000
(`assignTime = now - (sessionLimit - 1min)`), the claim's example. -/
def vbOneMinute : VBrowserSession :=
  { id := "vb2", provider := "Docker", large := false,
    assignTime := some 6460000, creatorUID := none, creatorClientID := none }

/-- An occupied room holding `vbOneMinute`. -/
def roomOneMinute : Room :=
  { roomId := "/room2", roster := ["bob"], lastUpdateTime := 10000000,
    vBrowser := some vbOneMinute }

/-- Witness for `release_timeout_iff`, at the claim's example instance:
a `large = false` session with one minute of ttl left is timed out — the
chat message is emitted and the session cleared. -/
theorem release_timeout_iff_witness :
    ReleaseEffect.chat "vBrowserTimeout" ∈ (releaseRoom sessionLimitExample 10000000 roomOneMinute).2
    ∧ (releaseRoom sessionLimitExample 10000000 roomOneMinute).1.vBrowser = none :=
  ⟨((release_timeout_iff sessionLimitExample 10000000 roomOneMinute vbOneMinute
      6460000 60000 rfl rfl (by decide) (by decide)).1.mpr (by decide)).1,
    ((release_timeout_iff sessionLimitExample 10000000 roomOneMinute vbOneMinute
      6460000 60000 rfl rfl (by decide) (by decide)).2 (by decide)).1⟩

/-- An empty, idle room (lastUpdateTime six minutes before 10000000)
whose session also has only one minute of ttl left. -/
def roomEmptyTimedOut : Room :=
  { roomId := "/room3", roster := [], lastUpdateTime := 9640000,
    vBrowser := some vbOneMinute }

/-- C2 counterexample: this room is empty and idle for more than five
minutes, so the claim says the sweep increments the empty-terminate
counter and emits no timeout chat message; but its session is also timed
out, and the code's timeout branch takes precedence — it emits
`vBrowserTimeout` and increments the timeout counter instead. -/
theorem release_empty_idle_counterexample :
    roomEmptyTimedOut.roster.length = 0
    ∧ ((10000000 : Int) - roomEmptyTimedOut.lastUpdateTime > 5 * 60 * 1000)
    ∧ releaseRoom sessionLimitExample 10000000 roomEmptyTimedOut
        = (stopVBrowserInternal roomEmptyTimedOut,
            [ReleaseEffect.stopVBrowser, ReleaseEffect.chat "vBrowserTimeout",
              ReleaseEffect.count "vBrowserTerminateTimeout"])
    ∧ ReleaseEffect.count "vBrowserTerminateEmpty"
        ∉ (releaseRoom sessionLimitExample 10000000 roomEmptyTimedOut).2 := by
  decide

/-- C2 (amended): for a room holding a session with a set assignTime,
empty roster and lastUpdateTime more than five minutes old, the sweep
releases the session regardless of the remaining ttl; and provided the
session is not simultaneously timed out (`ttl = 0 ∨ releaseInterval ≤ ttl`),
it increments the empty-terminate counter and emits no timeout chat
message (when it is also timed out, the timeout bookkeeping takes
precedence, per the counterexample). -/
theorem release_empty_idle (sl : Bool → Nat) (now : Int) (room : Room)
    (vb : VBrowserSession) (assignTime ttl : Int)
    (hvb : room.vBrowser = some vb) (hat : vb.assignTime = some assignTime)
    (hat0 : assignTime ≠ 0)
    (httl : ttl = (sl vb.large : Int) * 1000 - (now - assignTime))
    (hempty : room.roster.length = 0)
    (hidle : now - room.lastUpdateTime > 5 * 60 * 1000) :
    ((releaseRoom sl now room).1.vBrowser = none
      ∧ ReleaseEffect.stopVBrowser ∈ (releaseRoom sl now room).2)
    ∧ (¬(ttl ≠ 0 ∧ ttl < releaseInterval) →
        ReleaseEffect.count "vBrowserTerminateEmpty" ∈ (releaseRoom sl now room).2
        ∧ ReleaseEffect.chat "vBrowserTimeout" ∉ (releaseRoom sl now room).2) := by
  subst httl
  simp only [releaseRoom, hvb, hat, if_neg hat0]
  split_ifs with h1 h2 h3 <;>
    simp_all [stopVBrowserInternal]

/-- An empty room, idle for six minutes, whose session still has ample
ttl (assigned 1000000 ms before now, limit 3600s). -/
def roomEmptyFresh : Room :=
  { roomId := "/room4", roster := [], lastUpdateTime := 9640000,
    vBrowser := some
      { id := "vb3", provider := "Docker", large := false,
        assignTime := some 9000000, creatorUID := none, creatorClientID := none } }

/-- Witness for `release_empty_idle`, at the spec's example instance: an
empty room idle for six minutes is evicted even though `ttl = 2600000` is
large, with the empty-terminate counter and no timeout chat. -/
theorem release_empty_idle_witness :
    ReleaseEffect.stopVBrowser ∈ (releaseRoom sessionLimitExample 10000000 roomEmptyFresh).2
    ∧ ReleaseEffect.count "vBrowserTerminateEmpty"
        ∈ (releaseRoom sessionLimitExample 10000000 roomEmptyFresh).2 :=
  ⟨(release_empty_idle sessionLimitExample 10000000 roomEmptyFresh
      { id := "vb3", provider := "Docker", large := false,
        assignTime := some 9000000, creatorUID := none, creatorClientID := none }
      9000000 2600000 rfl rfl (by decide) (by decide) (by decide) (by decide)).1.2,
    ((release_empty_idle sessionLimitExample 10000000 roomEmptyFresh
      { id := "vb3", provider := "Docker", large := false,
        assignTime := some 9000000, creatorUID := none, creatorClientID := none }
      9000000 2600000 rfl rfl (by decide) (by decide) (by decide) (by decide)).2
      (by decide)).1⟩

/-! ## C3: batch coverage -/

/-- The batch counter after `k` sweeps is `(c0 + k) % releaseBatches`. -/
theorem batchAfter_eq (c0 : Nat) (hc0 : c0 < releaseBatches) (k : Nat) :
    batchAfter c0 k = (c0 + k) % releaseBatches := by
  induction k with
  | zero =>
    simp only [batchAfter, Nat.add_zero]
    exact (Nat.mod_eq_of_lt hc0).symm
  | succ k ih =>
    simp only [batchAfter, nextBatch, ih]
    simp only [releaseBatches] at hc0 ⊢
    omega

/-- C3: every room in the registry is selected by the batch filter in
exactly one of `releaseBatches` consecutive sweep cycles (the counter
advancing by `nextBatch` after each sweep) — coverage with no
duplication over one full `releaseInterval`. Proved for any hash
function, so in particular for the spec's deterministic `hashString`. -/
theorem release_batch_coverage (hashString : String → Nat) (rooms : List Room)
    (room : Room) (c0 : Nat) (hmem : room ∈ rooms) (hc0 : c0 < releaseBatches) :
    ∃! k, k < releaseBatches
      ∧ room ∈ releaseFilter hashString (batchAfter c0 k) rooms := by
  have hsel : ∀ k : Nat,
      (room ∈ releaseFilter hashString (batchAfter c0 k) rooms)
        ↔ hashString room.roomId % releaseBatches = (c0 + k) % releaseBatches := by
    intro k
    rw [releaseFilter, List.mem_filter, batchAfter_eq c0 hc0 k]
    simp [hmem]
  refine ⟨(hashString room.roomId % releaseBatches + releaseBatches - c0) % releaseBatches,
    ⟨?_, ?_⟩, ?_⟩
  · exact Nat.mod_lt _ (by simp [releaseBatches])
  · rw [hsel]
    have hh := Nat.mod_lt (hashString room.roomId) (show 0 < releaseBatches by simp [releaseBatches])
    simp only [releaseBatches] at hc0 hh ⊢
    omega
  · intro k hk
    obtain ⟨hklt, hksel⟩ := hk
    rw [hsel] at hksel
    have hh := Nat.mod_lt (hashString room.roomId) (show 0 < releaseBatches by simp [releaseBatches])
    simp only [releaseBatches] at hc0 hh hklt hksel ⊢
    omega

/-- Witness for `release_batch_coverage`: the singleton registry holding
`roomBoundary`, hashed by length, starting from batch 0. -/
theorem release_batch_coverage_witness :
    ∃! k, k < releaseBatches
      ∧ roomBoundary ∈ releaseFilter (fun s => s.length) (batchAfter 0 k) [roomBoundary] :=
  release_batch_coverage (fun s => s.length) [roomBoundary] roomBoundary 0
    (List.mem_singleton.mpr rfl) (by decide)

/-! ## C6: per-room failure isolation -/

/-- C6: whatever the per-room teardown outcomes — including ones that
fail — the sweep evaluates every room of the batch: the sequence of
per-room results is the full map of `releaseRoom` over the batch,
identical to the sequence produced when no teardown fails. -/
theorem releaseSweep_isolates_errors (sl : Bool → Nat) (now : Int)
    (stopOutcome : Room → Except String Unit) (batch : List Room) :
    (releaseSweep sl now stopOutcome batch).1 = batch.map (releaseRoom sl now)
    ∧ (releaseSweep sl now stopOutcome batch).1
        = (releaseSweep sl now (fun _ => Except.ok ()) batch).1 := by
  have hmap : ∀ (f : Room → Except String Unit),
      (releaseSweep sl now f batch).1 = batch.map (releaseRoom sl now) := by
    intro f
    induction batch with
    | nil => rfl
    | cons room rest ih => simp [releaseSweep, ih]
  exact ⟨hmap stopOutcome, by rw [hmap, hmap]⟩

/-! ## C7: startup behaviour under durable-store failure -/

/-- C7 counterexample: with a durable store configured whose startup
query throws, `init` aborts — the error propagates and the server/timer
startup steps are never reached — instead of completing with zero
preloaded rooms as the claim states. -/
theorem init_query_failure_counterexample :
    init none 0 true (fun _ => Except.error "ECONNREFUSED")
      = Except.error "ECONNREFUSED"
    ∧ init none 0 true (fun _ => Except.error "ECONNREFUSED")
      ≠ Except.ok { registry := [("/default", none)],
                    serverListening := true, timersStarted := true } := by
  constructor
  · rfl
  · exact fun h => Except.noConfusion h

/-- C7 (amended): when no durable store is configured, startup completes
with zero preloaded rooms (only the on-demand `/default` room) and the
server and timers start; but when a store is configured and the startup
query throws, `init` rejects with that error and startup does not
complete. -/
theorem init_unconfigured_ok_and_error_aborts (cfgShard : Option Nat)
    (numShards : Nat) (query : String → Except String (List PersistentRoom))
    (e : String) :
    init cfgShard numShards false query
      = Except.ok { registry := [("/default", none)],
                    serverListening := true, timersStarted := true }
    ∧ init cfgShard numShards true (fun _ => Except.error e) = Except.error e := by
  constructor <;> rfl

/-! ## C8: memory reclaimer -/

/-- C8: a memory-reclaim pass destroys exactly the rooms with an empty
roster whose id is absent from the fetched durable id set, and a room
with a non-empty roster always survives in the registry. -/
theorem freeUnusedRooms_spec (persistedIds : List String) (rooms : List Room) :
    (freeUnusedRooms persistedIds rooms).2
      = rooms.filter
          (fun room => room.roster.length == 0 && !(persistedIds.contains room.roomId))
    ∧ (freeUnusedRooms persistedIds rooms).1
      = rooms.filter
          (fun room => !(room.roster.length == 0 && !(persistedIds.contains room.roomId)))
    ∧ ∀ room ∈ rooms, room.roster.length ≠ 0 →
        room ∈ (freeUnusedRooms persistedIds rooms).1 := by
  refine ⟨rfl, rfl, ?_⟩
  intro room hmem hne
  simp only [freeUnusedRooms, List.mem_filter]
  refine ⟨hmem, ?_⟩
  simp [hne]

/-- Witness for `freeUnusedRooms_spec`: an occupied room with no durable
row survives the reclaim pass. -/
theorem freeUnusedRooms_spec_witness :
    roomBoundary ∈ (freeUnusedRooms ["/other"] [roomBoundary]).1 :=
  (freeUnusedRooms_spec ["/other"] [roomBoundary]).2.2 roomBoundary
    (List.mem_singleton.mpr rfl) (by decide)

/-! ## C9: lock renewal cadence -/

/-- C9: the renewal loop runs every `minuteMetricsIntervalMs = 60s`; for
every room with an active session (a vBrowser with a truthy id) it
refreshes the provider-keyed lock to a 300-second TTL and the
creator-uid lock to a 120-second TTL; the renewal interval is strictly
below both TTLs, so between one renewal and the next (at most 60s later)
each lock's remaining TTL stays positive. -/
theorem minuteMetrics_lock_renewal (startOfDaySec : Int) (rooms : List Room)
    (room : Room) (vb : VBrowserSession)
    (hmem : room ∈ rooms) (hvb : room.vBrowser = some vb) (hid : vb.id ≠ "") :
    RedisCmd.expire ("lock:" ++ vb.provider ++ ":" ++ vb.id) 300
        ∈ minuteMetrics startOfDaySec rooms
    ∧ RedisCmd.expire ("vBrowserUIDLock:" ++ jsShow vb.creatorUID) 120
        ∈ minuteMetrics startOfDaySec rooms
    ∧ minuteMetricsIntervalMs = 60 * 1000
    ∧ minuteMetricsIntervalMs < 300 * 1000
    ∧ minuteMetricsIntervalMs < 120 * 1000
    ∧ ∀ d : Nat, d ≤ minuteMetricsIntervalMs →
        0 < 300 * 1000 - (d : Int) ∧ 0 < 120 * 1000 - (d : Int) := by
  have hcmds : ∀ c, c ∈ minuteMetricsRoom startOfDaySec room →
      c ∈ minuteMetrics startOfDaySec rooms := by
    intro c hc
    exact List.mem_flatMap.mpr ⟨room, hmem, hc⟩
  have hroom : ∀ c,
      c ∈ [RedisCmd.expire ("lock:" ++ vb.provider ++ ":" ++ vb.id) 300,
            RedisCmd.expire ("vBrowserUIDLock:" ++ jsShow vb.creatorUID) 120] →
      c ∈ minuteMetricsRoom startOfDaySec room := by
    intro c hc
    simp only [minuteMetricsRoom, hvb, if_neg hid, List.append_assoc, List.mem_append]
    simp only [List.mem_cons, List.not_mem_nil, or_false] at hc
    rcases hc with hc | hc
    · exact Or.inl (by simp [hc])
    · exact Or.inl (by simp [hc])
  refine ⟨hcmds _ (hroom _ (by simp)), hcmds _ (hroom _ (by simp)), rfl,
    by decide, by decide, ?_⟩
  intro d hd
  simp only [minuteMetricsIntervalMs] at hd
  omega

/-- Witness for `minuteMetrics_lock_renewal` at a concrete registry. -/
theorem minuteMetrics_lock_renewal_witness :
    RedisCmd.expire ("lock:" ++ "Docker" ++ ":" ++ "vb1") 300
        ∈ minuteMetrics 0 [roomBoundary]
    ∧ RedisCmd.expire ("vBrowserUIDLock:" ++ jsShow none) 120
        ∈ minuteMetrics 0 [roomBoundary] :=
  ⟨(minuteMetrics_lock_renewal 0 [roomBoundary] roomBoundary vbBoundary
      (List.mem_singleton.mpr rfl) rfl (by decide)).1,
    (minuteMetrics_lock_renewal 0 [roomBoundary] roomBoundary vbBoundary
      (List.mem_singleton.mpr rfl) rfl (by decide)).2.1⟩

/-! ## Subscriber reconciliation: helper lemmas -/

/-- With both credentials configured, `syncSubscribers` reduces to the
digest computation, the gate, and the transaction. -/
theorem syncSubscribers_configured (md5 : List String → String)
    (gue : String → Option String)
    (subs : List StripeSubscription) (customers : List StripeCustomer)
    (d0 : Option String) (db : DbState) :
    syncSubscribers md5 gue true true subs customers d0 db
      = match computeDigest md5 (buildResult gue customers subs) with
        | Except.error e => Except.error e
        | Except.ok digest =>
          if some digest ≠ d0 then
            Except.ok { lastSubsDigest := some digest,
                        db := applyTransaction db (buildResult gue customers subs),
                        wrote := true }
          else
            Except.ok { lastSubsDigest := some digest, db := db, wrote := false } :=
  rfl

/-- The digest is a function of the resolved-uid sequence alone. -/
theorem computeDigest_congr (md5 : List String → String)
    (r1 r2 : List Subscriber)
    (h : r1.map (fun rec => rec.uid) = r2.map (fun rec => rec.uid)) :
    computeDigest md5 r1 = computeDigest md5 r2 := by
  unfold computeDigest
  rw [h]

/-- Whether some candidate row has a resolved uid equal to this owner. -/
def anyOwnerMatch (result : List Subscriber) (owner : Option String) : Bool :=
  result.any (fun row => !(row.uid == none) && owner == row.uid)

/-- Unfolding one step of the transaction's insert/update loop. -/
theorem insertLoop_cons (row : Subscriber) (rest : List Subscriber) (db : DbState) :
    insertLoop (row :: rest) db
      = insertLoop rest
          { subscribers := db.subscribers ++ [row],
            rooms := updateRoomsForUid row.uid db.rooms } :=
  rfl

/-- The insert/update loop appends every candidate row to the subscriber
table. -/
theorem insertLoop_subscribers (result : List Subscriber) :
    ∀ (s : List Subscriber) (rooms : List DbRoom),
      (insertLoop result { subscribers := s, rooms := rooms }).subscribers
        = s ++ result := by
  induction result with
  | nil => intro s rooms; simp [insertLoop]
  | cons row rest ih =>
    intro s rooms
    rw [insertLoop_cons]
    simp only
    rw [ih]
    simp

/-- The insert/update loop sets each room's flag when some candidate row
owns it, leaving the flag otherwise as it was. -/
theorem insertLoop_rooms (result : List Subscriber) :
    ∀ (s : List Subscriber) (rooms : List DbRoom),
      (insertLoop result { subscribers := s, rooms := rooms }).rooms
        = rooms.map (fun r =>
            { r with isSubRoom := r.isSubRoom || anyOwnerMatch result r.owner }) := by
  induction result with
  | nil =>
    intro s rooms
    simp [insertLoop, anyOwnerMatch]
  | cons row rest ih =>
    intro s rooms
    rw [insertLoop_cons]
    simp only
    rw [ih, updateRoomsForUid, List.map_map]
    have hpt : ((fun r : DbRoom =>
          { r with isSubRoom := r.isSubRoom || anyOwnerMatch rest r.owner })
        ∘ (fun r : DbRoom =>
          if row.uid ≠ none ∧ r.owner = row.uid then { r with isSubRoom := true } else r))
        = (fun r : DbRoom =>
          { r with isSubRoom := r.isSubRoom || anyOwnerMatch (row :: rest) r.owner }) := by
      funext r
      by_cases hc : row.uid ≠ none ∧ r.owner = row.uid
      · have h1 : (row.uid == none) = false := by
          simp [hc.1]
        have h2 : (r.owner == row.uid) = true := by
          simp [hc.2]
        simp [hc, anyOwnerMatch, List.any_cons, h1, h2]
      · have h3 : (!(row.uid == none) && r.owner == row.uid) = false := by
          rcases not_and_or.mp hc with h | h
          · have h0 : row.uid = none := not_not.mp h
            simp [h0]
          · simp [h]
        simp [hc, anyOwnerMatch, List.any_cons, h3]
    rw [hpt]

/-- Two durable states with equal components are equal. -/
theorem DbState.eq_of_parts (a : DbState) (s : List Subscriber) (r : List DbRoom)
    (h1 : a.subscribers = s) (h2 : a.rooms = r) : a = ⟨s, r⟩ := by
  cases a
  cases h1
  cases h2
  rfl

/-- The transaction replaces the subscriber table with the candidate rows
and recomputes each room's flag from scratch. -/
theorem applyTransaction_spec (db : DbState) (result : List Subscriber) :
    applyTransaction db result
      = { subscribers := result,
          rooms := db.rooms.map (fun r =>
            { r with isSubRoom := anyOwnerMatch result r.owner }) } := by
  unfold applyTransaction clearSubRooms
  refine DbState.eq_of_parts _ _ _ ?_ ?_
  · rw [insertLoop_subscribers]
    simp
  · rw [insertLoop_rooms, List.map_map]
    have hpt : ((fun r : DbRoom =>
          { r with isSubRoom := r.isSubRoom || anyOwnerMatch result r.owner })
        ∘ (fun r : DbRoom => { r with isSubRoom := false }))
        = (fun r : DbRoom =>
          { r with isSubRoom := anyOwnerMatch result r.owner }) := by
      funext r
      simp
    rw [hpt]

/-! ## C4: digest gate idempotence -/

/-- C4: when two consecutive reconciliation passes resolve the same uid
sequence (in provider order), the second pass computes the same digest as
the one stored by the first, so the gate skips the transaction: no
durable write happens and the database is untouched. -/
theorem syncSubscribers_idempotent (md5 : List String → String)
    (gue1 gue2 : String → Option String)
    (subs1 subs2 : List StripeSubscription)
    (customers1 customers2 : List StripeCustomer)
    (d0 : Option String) (db0 : DbState) (r1 : SyncResult)
    (hpass1 : syncSubscribers md5 gue1 true true subs1 customers1 d0 db0
      = Except.ok r1)
    (huids : (buildResult gue2 customers2 subs2).map (fun rec => rec.uid)
      = (buildResult gue1 customers1 subs1).map (fun rec => rec.uid)) :
    syncSubscribers md5 gue2 true true subs2 customers2 r1.lastSubsDigest r1.db
      = Except.ok { lastSubsDigest := r1.lastSubsDigest, db := r1.db, wrote := false } := by
  rw [syncSubscribers_configured] at hpass1 ⊢
  rcases hdig : computeDigest md5 (buildResult gue1 customers1 subs1) with e | d1
  · rw [hdig] at hpass1
    exact Except.noConfusion hpass1
  · have hpass2 : (if some d1 ≠ d0 then
        Except.ok { lastSubsDigest := some d1,
                    db := applyTransaction db0 (buildResult gue1 customers1 subs1),
                    wrote := true }
      else Except.ok { lastSubsDigest := some d1, db := db0, wrote := false })
        = (Except.ok r1 : Except String SyncResult) := by
      rw [hdig] at hpass1
      exact hpass1
    have hd2 : computeDigest md5 (buildResult gue2 customers2 subs2) = Except.ok d1 := by
      rw [computeDigest_congr md5 _ _ huids, hdig]
    have hlast : r1.lastSubsDigest = some d1 := by
      by_cases hgate : some d1 ≠ d0
      · rw [if_pos hgate] at hpass2
        injection hpass2 with h
        rw [← h]
      · rw [if_neg hgate] at hpass2
        injection hpass2 with h
        rw [← h]
    rw [hd2, hlast]
    simp

/-- A concrete digest function for witnesses. -/
def md5W : List String → String := fun l => String.intercalate "," l

/-- A concrete identity resolver for witnesses. -/
def gueW : String → Option String := fun _ => some "uid1"

/-- A concrete subscription list for witnesses. -/
def subsW : List StripeSubscription := [{ customer := "cus1", status := "active" }]

/-- A concrete customer list for witnesses. -/
def customersW : List StripeCustomer := [{ id := "cus1", email := some "a@b.c" }]

/-- The candidate row the witness inputs resolve to. -/
def subRecW : Subscriber :=
  { customerId := "cus1", email := some "a@b.c", status := "active", uid := some "uid1" }

/-- Witness for `syncSubscribers_idempotent`: after a first pass from a
fresh state, repeating identical inputs leaves the database untouched and
performs no write. -/
theorem syncSubscribers_idempotent_witness :
    syncSubscribers md5W gueW true true subsW customersW (some "uid1")
        { subscribers := [subRecW], rooms := [] }
      = Except.ok { lastSubsDigest := some "uid1",
                    db := { subscribers := [subRecW], rooms := [] },
                    wrote := false } :=
  syncSubscribers_idempotent md5W gueW gueW subsW subsW customersW customersW
    none { subscribers := [], rooms := [] }
    { lastSubsDigest := some "uid1",
      db := { subscribers := [subRecW], rooms := [] }, wrote := true }
    rfl rfl

/-! ## C5: full replacement on digest change -/

/-- `anyOwnerMatch` holds exactly when the owner is a resolved uid. -/
theorem anyOwnerMatch_eq_true_iff (result : List Subscriber) (owner : Option String) :
    anyOwnerMatch result owner = true
      ↔ (owner ≠ none ∧ owner ∈ result.map (fun rec => rec.uid)) := by
  unfold anyOwnerMatch
  rw [List.any_eq_true]
  constructor
  · rintro ⟨row, hrow, hb⟩
    simp only [Bool.and_eq_true, Bool.not_eq_true', beq_eq_false_iff_ne, beq_iff_eq] at hb
    obtain ⟨hn, he⟩ := hb
    exact ⟨by rw [he]; exact hn, List.mem_map.mpr ⟨row, hrow, he.symm⟩⟩
  · rintro ⟨hn, hmem⟩
    obtain ⟨row, hrow, he⟩ := List.mem_map.mp hmem
    refine ⟨row, hrow, ?_⟩
    simp only [Bool.and_eq_true, Bool.not_eq_true', beq_eq_false_iff_ne, beq_iff_eq]
    exact ⟨by rw [he]; exact hn, he.symm⟩

/-- Boolean form of the previous characterization. -/
theorem anyOwnerMatch_eq_decide (result : List Subscriber) (owner : Option String) :
    anyOwnerMatch result owner
      = decide (owner ≠ none ∧ owner ∈ result.map (fun rec => rec.uid)) := by
  by_cases hp : owner ≠ none ∧ owner ∈ result.map (fun rec => rec.uid)
  · rw [decide_eq_true hp]
    exact (anyOwnerMatch_eq_true_iff result owner).mpr hp
  · rw [decide_eq_false hp]
    exact Bool.eq_false_iff.mpr
      (fun h => hp ((anyOwnerMatch_eq_true_iff result owner).mp h))

/-- C5: a pass whose digest differs from the stored one commits a
transaction that leaves the subscriber table equal to exactly this pass's
candidate rows and sets `isSubRoom` to true on exactly the rooms whose
owner is one of this pass's resolved uids, false on every other room
(including ownerless rooms). -/
theorem syncSubscribers_full_replacement (md5 : List String → String)
    (gue : String → Option String)
    (subs : List StripeSubscription) (customers : List StripeCustomer)
    (d0 : Option String) (db0 : DbState) (digest : String)
    (hd : computeDigest md5 (buildResult gue customers subs) = Except.ok digest)
    (hne : some digest ≠ d0) :
    syncSubscribers md5 gue true true subs customers d0 db0
      = Except.ok
          { lastSubsDigest := some digest,
            db := { subscribers := buildResult gue customers subs,
                    rooms := db0.rooms.map (fun room =>
                      { room with
                        isSubRoom :=
                          decide (room.owner ≠ none
                            ∧ room.owner ∈ (buildResult gue customers subs).map
                                (fun rec => rec.uid)) }) },
            wrote := true } := by
  have hmaps : (fun r : DbRoom =>
        { r with isSubRoom := anyOwnerMatch (buildResult gue customers subs) r.owner })
      = (fun room : DbRoom =>
        { room with
          isSubRoom :=
            decide (room.owner ≠ none
              ∧ room.owner ∈ (buildResult gue customers subs).map
                  (fun rec => rec.uid)) }) := by
    funext r
    rw [anyOwnerMatch_eq_decide]
  rw [syncSubscribers_configured, hd]
  show (if some digest ≠ d0 then _ else _) = _
  rw [if_pos hne, applyTransaction_spec, hmaps]

/-- A concrete room table for the C5 witness: one room owned by the
resolved subscriber, one by somebody else, one ownerless. -/
def dbRoomsW : List DbRoom :=
  [{ roomId := "/r1", owner := some "uid1", isSubRoom := false },
   { roomId := "/r2", owner := some "other", isSubRoom := true },
   { roomId := "/r3", owner := none, isSubRoom := true }]

/-- Witness for `syncSubscribers_full_replacement`: from a fresh state the
transaction installs exactly the candidate row and flags exactly the room
owned by the resolved uid. -/
theorem syncSubscribers_full_replacement_witness :
    syncSubscribers md5W gueW true true subsW customersW none
        { subscribers := [], rooms := dbRoomsW }
      = Except.ok
          { lastSubsDigest := some "uid1",
            db := { subscribers := [subRecW],
                    rooms := [{ roomId := "/r1", owner := some "uid1", isSubRoom := true },
                              { roomId := "/r2", owner := some "other", isSubRoom := false },
                              { roomId := "/r3", owner := none, isSubRoom := false }] },
            wrote := true } :=
  syncSubscribers_full_replacement md5W gueW subsW customersW none
    { subscribers := [], rooms := dbRoomsW } "uid1" rfl (by decide)

/-! ## C10: unresolved uids abort the pass before any write -/

/-- Feeding the digest an undefined uid throws, whatever follows it. -/
theorem hashUpdateAll_error_of_mem (l : List (Option String)) (h : none ∈ l) :
    hashUpdateAll l = Except.error "TypeError: Data must be a string or a buffer" := by
  induction l with
  | nil => cases h
  | cons a rest ih =>
    rcases a with _ | s
    · rfl
    · rcases List.mem_cons.mp h with h1 | h2
      · exact Option.noConfusion h1
      · simp [hashUpdateAll, ih h2]

/-- A digest that came back means every fed uid was defined. -/
theorem hashUpdateAll_ok_forall (l : List (Option String)) :
    ∀ res : List String, hashUpdateAll l = Except.ok res → ∀ u ∈ l, u ≠ none := by
  induction l with
  | nil =>
    intro res _ u hu
    cases hu
  | cons a rest ih =>
    intro res h u hu
    rcases a with _ | s
    · exact Except.noConfusion h
    · rcases hrest : hashUpdateAll rest with e | l2
      · rw [hashUpdateAll, hrest] at h
        exact Except.noConfusion h
      · rcases List.mem_cons.mp hu with h1 | h2
        · rw [h1]
          exact fun hh => Option.noConfusion hh
        · exact ih l2 hrest u h2

/-- C10: if any subscription of the pass resolves to no identity uid, the
digest loop throws a `TypeError` — the pass aborts before the gate, the
transaction and the digest replacement — and conversely a pass returns
normally only when every candidate row carries a resolved uid. -/
theorem syncSubscribers_unresolved_uid (md5 : List String → String)
    (gue : String → Option String)
    (subs : List StripeSubscription) (customers : List StripeCustomer)
    (d0 : Option String) (db0 : DbState) :
    ((∃ rec ∈ buildResult gue customers subs, rec.uid = none) →
      syncSubscribers md5 gue true true subs customers d0 db0
        = Except.error "TypeError: Data must be a string or a buffer")
    ∧ (∀ r : SyncResult,
        syncSubscribers md5 gue true true subs customers d0 db0 = Except.ok r →
        ∀ rec ∈ buildResult gue customers subs, rec.uid ≠ none) := by
  constructor
  · rintro ⟨rec, hmem, hnone⟩
    have hme : none ∈ (buildResult gue customers subs).map (fun rec => rec.uid) :=
      List.mem_map.mpr ⟨rec, hmem, hnone⟩
    have hcd : computeDigest md5 (buildResult gue customers subs)
        = Except.error "TypeError: Data must be a string or a buffer" := by
      unfold computeDigest
      rw [hashUpdateAll_error_of_mem _ hme]
    rw [syncSubscribers_configured, hcd]
  · intro r hok rec hmem
    rw [syncSubscribers_configured] at hok
    rcases hdig : computeDigest md5 (buildResult gue customers subs) with e | d
    · rw [hdig] at hok
      exact Except.noConfusion hok
    · unfold computeDigest at hdig
      rcases hup : hashUpdateAll ((buildResult gue customers subs).map (fun rec => rec.uid))
        with e | uids
      · rw [hup] at hdig
        exact Except.noConfusion hdig
      · exact hashUpdateAll_ok_forall _ uids hup rec.uid
          (List.mem_map_of_mem _ hmem)

/-- An identity resolver that never finds a user, for the C10 witness. -/
def gueNone : String → Option String := fun _ => none

/-- Witness for `syncSubscribers_unresolved_uid`: with an identity
provider that knows no user, the pass throws the digest `TypeError`. -/
theorem syncSubscribers_unresolved_uid_witness :
    syncSubscribers md5W gueNone true true subsW customersW none
        { subscribers := [], rooms := [] }
      = Except.error "TypeError: Data must be a string or a buffer" :=
  (syncSubscribers_unresolved_uid md5W gueNone subsW customersW none
      { subscribers := [], rooms := [] }).1
    ⟨{ customerId := "cus1", email := some "a@b.c", status := "active", uid := none },
      by decide, rfl⟩
